import Mathlib

/-!
Shallow embedding of `src/server.js` (Express + mariadb CRUD service over an
`orders` table) and proofs about its request pipeline.

The embedding follows the source:
* validator.js / express-validator sanitizers and validators (`trim`,
  `escape`, `isLength({min:1})`, `isInt`, `isInt({min:1})`, `optional()`)
  are modelled as pure string/integer functions;
* each route's middleware chain and handler body becomes a pure function
  from a request (path id string plus JSON body) to an action: either a
  400 response carrying the validation errors, or a `queryDB` invocation
  carrying the statement string and the ordered value list the handler
  supplies;
* `queryDB` itself is modelled at two levels: the command it submits to the
  driver (note: the JS function declares only the `sql` parameter and calls
  `conn.query(sql)`, so values passed at call sites are discarded by
  JavaScript's calling convention), and its acquire/release control flow.
-/

namespace Server

/-- Whitespace characters removed by the JS `trim()` sanitizer
(the common ASCII whitespace set of the `\s` class). -/
def isWsChar (c : Char) : Bool :=
  c = ' ' || c = '\t' || c = '\n' || c = '\r' || c = '\x0b' || c = '\x0c'

/-- Drop leading and trailing whitespace from a character list. -/
def jsTrimList (l : List Char) : List Char :=
  ((l.dropWhile isWsChar).reverse.dropWhile isWsChar).reverse

/-- The `trim()` sanitizer of express-validator (JS `String.prototype.trim`). -/
def jsTrim (s : String) : String :=
  ⟨jsTrimList s.data⟩

/-- Per-character HTML escaping of validator.js `escape()`:
`& " ' < > / \` and the backtick are replaced by HTML entities. -/
def escapeChar (c : Char) : String :=
  if c = '&' then "&amp;"
  else if c = '"' then "&quot;"
  else if c = '\x27' then "&#x27;"
  else if c = '<' then "&lt;"
  else if c = '>' then "&gt;"
  else if c = '/' then "&#x2F;"
  else if c = '\\' then "&#x5C;"
  else if c = '\x60' then "&#96;"
  else String.mk [c]

/-- Escape every character of a character list. -/
def escapeList : List Char → List Char
  | [] => []
  | c :: cs => (escapeChar c).data ++ escapeList cs

/-- The `escape()` sanitizer of express-validator. -/
def escapeHtml (s : String) : String :=
  ⟨escapeList s.data⟩

/-- validator.js `isInt` on a character list: an optional sign followed by
at least one decimal digit. -/
def isIntStrL (l : List Char) : Bool :=
  match l with
  | [] => false
  | c :: rest =>
    if c = '-' || c = '+' then !rest.isEmpty && rest.all Char.isDigit
    else l.all Char.isDigit

/-- validator.js `isInt` on a string (used by `param('id').isInt()`). -/
def isIntStr (s : String) : Bool :=
  isIntStrL s.data

/-- Numeric value of a decimal string accepted by `isIntStr`
(used by the database when comparing an INT column to a string value). -/
def parseIntStr (s : String) : Option Int :=
  if isIntStr s then
    match s.data with
    | '-' :: rest => some (-(rest.foldl (fun a c => a * 10 + (c.toNat - 48)) 0 : Nat))
    | '+' :: rest => some ((rest.foldl (fun a c => a * 10 + (c.toNat - 48)) 0 : Nat) : Int)
    | l => some ((l.foldl (fun a c => a * 10 + (c.toNat - 48)) 0 : Nat) : Int)
  else none

/-- The JSON value found in the `quantity` field of a request body:
either an integral value (an integer number, or a decimal string, which
`isInt` accepts and whose use is equivalent to the integer it denotes),
or any other JSON value, which `isInt` rejects. -/
inductive JQty
  | qint (n : Int)
  | qbad
deriving DecidableEq

/-- A request body as the handlers see it: the `name` and `quantity`
fields of the parsed JSON body, each possibly absent. -/
structure ReqBody where
  name : Option String
  quantity : Option JQty
deriving DecidableEq

/-- A value pushed into a statement's parameter list by a handler. -/
inductive Value
  | vstr (s : String)
  | vint (n : Int)
  | vbad
deriving DecidableEq

/-- JavaScript truthiness of a quantity value (`if (quantity)`): the number
0 is falsy; non-integer values are rejected by validation before any
handler tests them, so their truthiness never matters on reachable paths. -/
def jqtyTruthy : JQty → Bool
  | .qint n => n ≠ 0
  | .qbad => true

/-- The parameter value a handler pushes for a quantity field. -/
def jqtyVal : JQty → Value
  | .qint n => .vint n
  | .qbad => .vbad

/-- The parameter value for an optional quantity field; `none` is JS
`undefined`, which no validated path ever pushes. -/
def optQtyVal : Option JQty → Value
  | some q => jqtyVal q
  | none => .vbad

/-- A row of the `orders` table. -/
structure Order where
  id : Int
  name : String
  quantity : Int
deriving DecidableEq

/-- The invariant claimed for order rows: quantity at least 1 and a
non-empty name. -/
def orderOK (o : Order) : Prop :=
  o.name ≠ "" ∧ 1 ≤ o.quantity

/-- Result of a successful driver query: a row set for SELECT, or an
OK-packet with `affectedRows` and `insertId` for INSERT/UPDATE/DELETE. -/
inductive QueryResult
  | rowSet (rows : List Order)
  | okPacket (affectedRows : Int) (insertId : Int)
deriving DecidableEq

/-- `result.insertId` as read by the POST handler (`none` is JS
`undefined` when the result is not an OK-packet). -/
def insertIdOf : QueryResult → Option Int
  | .okPacket _ i => some i
  | .rowSet _ => none

/-- `result.affectedRows` as read by the PATCH/PUT/DELETE handlers. -/
def affectedRowsOf : QueryResult → Option Int
  | .okPacket a _ => some a
  | .rowSet _ => none

/-- One record of `errors.array()`. -/
structure FieldError where
  location : String
  path : String
  msg : String
deriving DecidableEq

/-- The default express-validator error record for a failing field. -/
def invalidValue (location path : String) : FieldError :=
  ⟨location, path, "Invalid value"⟩

/-- JSON response bodies produced by the handlers. -/
inductive RespBody
  | jsonErrors (errs : List FieldError)
  | jsonError (msg : String)
  | jsonRows (r : QueryResult)
  | jsonCreated (id : Option Int) (name : String) (quantity : Value)
  | jsonAffected (msg : String) (affectedRows : Option Int)
deriving DecidableEq

/-- An HTTP response: status code and JSON body. -/
structure Response where
  status : Nat
  body : RespBody
deriving DecidableEq

/-- The arguments of a handler's `queryDB(sql, values)` invocation. -/
structure SqlCall where
  sql : String
  params : List Value
deriving DecidableEq

/-- The command actually submitted to the database driver: the statement
string together with the values bound into its placeholders. -/
structure DbCommand where
  sql : String
  boundParams : List Value
deriving DecidableEq

/-- What a handler does once its middleware chain has run: answer
immediately (validation failure), or invoke the query helper. -/
inductive Action
  | respond (r : Response)
  | dbCall (c : SqlCall)
deriving DecidableEq

/-- `queryDB` from src/server.js lines 26-35. Its JS signature declares
only `sql`, and the body runs `conn.query(sql)`: the command submitted to
the driver is the statement string with no values bound. -/
def queryDB (sql : String) : DbCommand :=
  ⟨sql, []⟩

/-- A JS call `queryDB(stmt, values)` as the handlers write it: arguments
beyond a function's declared parameter list are discarded by JavaScript,
so `values` never reaches the driver. -/
def queryDBCall (sql : String) (values : List Value) : DbCommand :=
  queryDB sql

/-- Number of `?` placeholders in a statement string. -/
def placeholderCount (s : String) : Nat :=
  s.data.countP (fun c => c = '?')

/-- One run of `queryDB`'s control flow, determined by the outcome of
`pool.getConnection()` and, when a connection is produced, of
`conn.query(sql)`. -/
structure QueryRun where
  getConnection : Except String Unit
  queryOutcome : Except String QueryResult

/-- Observable trace of one `queryDB` run: the returned-or-thrown result,
whether a connection was acquired, and how many times `release` ran. -/
structure ExecTrace where
  result : Except String QueryResult
  acquired : Bool
  releases : Nat

/-- The try/finally control flow of `queryDB` (src/server.js lines 26-35):
if `getConnection` throws, `conn` was never assigned and the finally
block's `if (conn)` skips release; otherwise the finally block releases
the connection exactly once, both when `conn.query` returns rows and when
it throws. -/
def queryDBExec (run : QueryRun) : ExecTrace :=
  match run.getConnection with
  | .error m => ⟨.error m, false, 0⟩
  | .ok _ =>
    match run.queryOutcome with
    | .ok rows => ⟨.ok rows, true, 1⟩
    | .error m => ⟨.error m, true, 1⟩

/-- Validator chain of POST /orders (src/server.js lines 98-99):
`body('name').trim().isLength({min:1}).escape()` checks the trimmed name is
non-empty (a missing field is handled as the empty string), and
`body('quantity').isInt({min:1})` requires an integer of at least 1. Errors
are collected in middleware order. -/
def validatePost (b : ReqBody) : List FieldError :=
  (if 1 ≤ (jsTrim (b.name.getD "")).length then [] else [invalidValue "body" "name"]) ++
  (match b.quantity with
   | some (.qint n) => if 1 ≤ n then [] else [invalidValue "body" "quantity"]
   | _ => [invalidValue "body" "quantity"])

/-- Validator chain of PATCH /orders/:id (src/server.js lines 140-142):
`param('id').isInt()`; `body('name').optional().trim().escape()` carries
only sanitizers, so the name never produces an error; and
`body('quantity').optional().isInt({min:1})` is checked only when the field
is present. -/
def validatePatch (idStr : String) (b : ReqBody) : List FieldError :=
  (if isIntStr idStr then [] else [invalidValue "params" "id"]) ++
  (match b.quantity with
   | none => []
   | some (.qint n) => if 1 ≤ n then [] else [invalidValue "body" "quantity"]
   | some .qbad => [invalidValue "body" "quantity"])

/-- Validator chain of PUT /orders/:id (src/server.js lines 194-196):
`param('id').isInt()`, then the POST name and quantity rules. -/
def validatePut (idStr : String) (b : ReqBody) : List FieldError :=
  (if isIntStr idStr then [] else [invalidValue "params" "id"]) ++
  validatePost b

/-- Validator chain of DELETE /orders/:id (src/server.js line 229):
`param('id').isInt()` only. -/
def validateDelete (idStr : String) : List FieldError :=
  if isIntStr idStr then [] else [invalidValue "params" "id"]

/-- The routes of the service that issue database statements. -/
inductive Route
  | getOrders
  | post
  | patch
  | put
  | delete
  | getStudent
  | getFoods
deriving DecidableEq

/-- The validation-error list a route's middleware chain accumulates
(the GET routes declare no validators). -/
def routeErrors (r : Route) (idStr : String) (b : ReqBody) : List FieldError :=
  match r with
  | .post => validatePost b
  | .patch => validatePatch idStr b
  | .put => validatePut idStr b
  | .delete => validateDelete idStr
  | _ => []

/-- Effect of the sanitizers on the request body: `trim().escape()` rewrite
the name field in place (for POST/PUT the chain also runs on a missing
name, leaving the empty string); the quantity field has no sanitizer. -/
def routeSanitize (r : Route) (b : ReqBody) : ReqBody :=
  match r with
  | .post => ⟨some (escapeHtml (jsTrim (b.name.getD ""))), b.quantity⟩
  | .put => ⟨some (escapeHtml (jsTrim (b.name.getD ""))), b.quantity⟩
  | .patch => ⟨b.name.map (fun s => escapeHtml (jsTrim s)), b.quantity⟩
  | _ => b

/-- The `updates`/`values` pairs the PATCH handler pushes (src/server.js
lines 149-152): `if (name) { updates.push('name=?'); values.push(name) }`
then the same for quantity — a field is included exactly when it is
present and truthy, name first. -/
def patchAssignments (b : ReqBody) : List (String × Value) :=
  (match b.name with
   | some s => if s ≠ "" then [("name", Value.vstr s)] else []
   | none => []) ++
  (match b.quantity with
   | some q => if jqtyTruthy q then [("quantity", jqtyVal q)] else []
   | none => [])

/-- The `queryDB` invocation each route's handler makes once validation
has passed, applied to the sanitized body (statement strings are the
source's literals; the PATCH statement is assembled from `updates` with
`join(', ')` inside a template literal). -/
def routeCall (r : Route) (idStr : String) (b : ReqBody) : SqlCall :=
  match r with
  | .getOrders => ⟨"SELECT * FROM orders;", []⟩
  | .post => ⟨"INSERT INTO orders(name, quantity) VALUES (?, ?)",
      [.vstr (b.name.getD ""), optQtyVal b.quantity]⟩
  | .patch => ⟨"UPDATE orders SET " ++
        String.intercalate ", " ((patchAssignments b).map (fun p => p.1 ++ "=?")) ++
        " WHERE id=?",
      (patchAssignments b).map Prod.snd ++ [.vstr idStr]⟩
  | .put => ⟨"UPDATE orders SET name=?, quantity=? WHERE id=?",
      [.vstr (b.name.getD ""), optQtyVal b.quantity, .vstr idStr]⟩
  | .delete => ⟨"DELETE FROM orders WHERE id=?", [.vstr idStr]⟩
  | .getStudent => ⟨"SELECT * FROM student;", []⟩
  | .getFoods => ⟨"SELECT * FROM foods;", []⟩

/-- A route's middleware-plus-handler pipeline up to the database call:
`if (!errors.isEmpty()) return res.status(400).json({errors: errors.array()})`,
otherwise the handler invokes `queryDB` on the sanitized body. -/
def pipeline (r : Route) (idStr : String) (b : ReqBody) : Action :=
  if routeErrors r idStr b = [] then
    .dbCall (routeCall r idStr (routeSanitize r b))
  else
    .respond ⟨400, .jsonErrors (routeErrors r idStr b)⟩

/-- How a handler shapes its response from the query outcome: every route
catches a query error as `res.status(500).json({error: err.message})`; on
success GET answers the rows, POST answers
`201 {id: result.insertId, name, quantity}` from the sanitized body, and
PATCH/PUT/DELETE answer `{msg, affectedRows}`. -/
def respondRoute (r : Route) (b : ReqBody) (out : Except String QueryResult) : Response :=
  match out with
  | .error m => ⟨500, .jsonError m⟩
  | .ok res =>
    match r with
    | .post => ⟨201, .jsonCreated (insertIdOf res) (b.name.getD "") (optQtyVal b.quantity)⟩
    | .patch => ⟨200, .jsonAffected "Order updated" (affectedRowsOf res)⟩
    | .put => ⟨200, .jsonAffected "Order replaced" (affectedRowsOf res)⟩
    | .delete => ⟨200, .jsonAffected "Order deleted" (affectedRowsOf res)⟩
    | _ => ⟨200, .jsonRows res⟩

/-- A whole request: if validation failed the 400 response is final,
otherwise the handler's try/catch turns the query outcome into the
response. The function is total: every failure is caught and answered,
none escapes the handler. -/
def handleRequest (r : Route) (idStr : String) (b : ReqBody)
    (out : Except String QueryResult) : Response :=
  match pipeline r idStr b with
  | .respond resp => resp
  | .dbCall _ => respondRoute r (routeSanitize r b) out

/-- Whether a row is selected by a `WHERE id=?` clause bound to the given
value (the database compares the INT column numerically). -/
def rowIdMatches (o : Order) (v : Value) : Bool :=
  match v with
  | .vstr s => parseIntStr s = some o.id
  | .vint n => n = o.id
  | .vbad => false

/-- Intended parameterized execution of the statements this service can
emit, as a transformation of the `orders` table: an INSERT appends a row
with the database-assigned id, an UPDATE rewrites the bound columns of the
matching rows, a DELETE removes the matching rows. A statement whose
placeholders are not matched by the bound values, or an unknown or
degenerate statement (such as the empty SET clause), is rejected by the
database and changes nothing. -/
def applyCall (c : DbCommand) (tbl : List Order) (newId : Int) : List Order :=
  if c.sql = "INSERT INTO orders(name, quantity) VALUES (?, ?)" then
    match c.boundParams with
    | [.vstr n, .vint q] => tbl ++ [⟨newId, n, q⟩]
    | _ => tbl
  else if c.sql = "UPDATE orders SET name=?, quantity=? WHERE id=?" then
    match c.boundParams with
    | [.vstr n, .vint q, idv] =>
      tbl.map (fun o => if rowIdMatches o idv then ⟨o.id, n, q⟩ else o)
    | _ => tbl
  else if c.sql = "UPDATE orders SET name=? WHERE id=?" then
    match c.boundParams with
    | [.vstr n, idv] =>
      tbl.map (fun o => if rowIdMatches o idv then ⟨o.id, n, o.quantity⟩ else o)
    | _ => tbl
  else if c.sql = "UPDATE orders SET quantity=? WHERE id=?" then
    match c.boundParams with
    | [.vint q, idv] =>
      tbl.map (fun o => if rowIdMatches o idv then ⟨o.id, o.name, q⟩ else o)
    | _ => tbl
  else if c.sql = "DELETE FROM orders WHERE id=?" then
    match c.boundParams with
    | [idv] => tbl.filter (fun o => !rowIdMatches o idv)
    | _ => tbl
  else
    tbl

/-- A handler's call read as the command it intends: every supplied value
bound into the statement, in order. (The actual executor discards the
values; see `queryDBCall`.) -/
def SqlCall.asBound (c : SqlCall) : DbCommand :=
  ⟨c.sql, c.params⟩

/-- A string is non-empty exactly when its character list is. -/
lemma str_ne_empty_iff (s : String) : s ≠ "" ↔ s.data ≠ [] := by
  rcases s with ⟨l⟩
  constructor
  · intro h hl
    exact h (congrArg String.mk hl)
  · intro h he
    exact h (congrArg String.data he)

/-- Every character escapes to a non-empty string. -/
lemma escapeChar_ne_nil (c : Char) : (escapeChar c).data ≠ [] := by
  unfold escapeChar
  repeat' split
  all_goals simp

/-- HTML escaping a non-empty string yields a non-empty string. -/
lemma escapeHtml_ne_empty (s : String) (h : s ≠ "") : escapeHtml s ≠ "" := by
  rw [str_ne_empty_iff] at h ⊢
  rcases s with ⟨l⟩
  rcases l with _ | ⟨c, cs⟩
  · exact absurd rfl h
  · show (escapeChar c).data ++ escapeList cs ≠ []
    intro he
    exact escapeChar_ne_nil c (List.append_eq_nil.mp he).1

/-- A string of positive length is non-empty. -/
lemma str_len_pos_ne_empty (s : String) (h : 1 ≤ s.length) : s ≠ "" := by
  rw [str_ne_empty_iff]
  intro hd
  rw [String.length, hd] at h
  simp at h

/-- Characterization of a passing POST validation: trimmed name of length
at least 1 and an integer quantity of at least 1. -/
lemma validatePost_eq_nil (b : ReqBody) :
    validatePost b = [] ↔
      1 ≤ (jsTrim (b.name.getD "")).length ∧
        ∃ n, b.quantity = some (JQty.qint n) ∧ 1 ≤ n := by
  rcases b with ⟨nm, q⟩
  unfold validatePost
  by_cases hn : 1 ≤ (jsTrim (Option.getD nm "")).length
  · rw [if_pos hn]
    rcases q with _ | (n | _) <;> simp [hn]
  · rw [if_neg hn]
    rcases q with _ | (n | _) <;> simp [hn]

/-- Characterization of a passing PATCH validation: integer path id, and
the quantity field absent or an integer of at least 1 (the name field
never contributes an error). -/
lemma validatePatch_eq_nil (idStr : String) (b : ReqBody) :
    validatePatch idStr b = [] ↔
      isIntStr idStr = true ∧
        (b.quantity = none ∨ ∃ n, b.quantity = some (JQty.qint n) ∧ 1 ≤ n) := by
  rcases b with ⟨nm, q⟩
  unfold validatePatch
  by_cases hid : isIntStr idStr = true
  · rw [if_pos hid]
    rcases q with _ | (n | _) <;> simp [hid]
  · rw [if_neg hid]
    rcases q with _ | (n | _) <;> simp [hid]

/-- Characterization of a passing PUT validation. -/
lemma validatePut_eq_nil (idStr : String) (b : ReqBody) :
    validatePut idStr b = [] ↔
      isIntStr idStr = true ∧
        (1 ≤ (jsTrim (b.name.getD "")).length ∧
          ∃ n, b.quantity = some (JQty.qint n) ∧ 1 ≤ n) := by
  unfold validatePut
  by_cases hid : isIntStr idStr = true
  · rw [if_pos hid]
    simp [hid, validatePost_eq_nil]
  · rw [if_neg hid]
    simp [hid]

/-- Characterization of a passing DELETE validation. -/
lemma validateDelete_eq_nil (idStr : String) :
    validateDelete idStr = [] ↔ isIntStr idStr = true := by
  unfold validateDelete
  by_cases hid : isIntStr idStr = true
  · rw [if_pos hid]
    simp [hid]
  · rw [if_neg hid]
    simp [hid]

/-- The pipeline reaches the database exactly when validation passed, and
then issues the handler's call on the sanitized body. -/
lemma pipeline_eq_dbCall (r : Route) (idStr : String) (b : ReqBody) (c : SqlCall) :
    pipeline r idStr b = .dbCall c ↔
      routeErrors r idStr b = [] ∧ c = routeCall r idStr (routeSanitize r b) := by
  unfold pipeline
  split
  · rename_i h
    constructor
    · intro he
      injection he with he2
      exact ⟨h, he2.symm⟩
    · rintro ⟨-, rfl⟩
      rfl
  · rename_i h
    constructor
    · intro he
      exact Action.noConfusion he
    · rintro ⟨h1, -⟩
      exact absurd h1 h

lemma applyCall_insert (nm : String) (q : Int) (tbl : List Order) (newId : Int) :
    applyCall ⟨"INSERT INTO orders(name, quantity) VALUES (?, ?)", [.vstr nm, .vint q]⟩ tbl newId
      = tbl ++ [⟨newId, nm, q⟩] := rfl

lemma applyCall_update2 (nm : String) (q : Int) (idv : Value) (tbl : List Order) (newId : Int) :
    applyCall ⟨"UPDATE orders SET name=?, quantity=? WHERE id=?", [.vstr nm, .vint q, idv]⟩ tbl newId
      = tbl.map (fun o => if rowIdMatches o idv then ⟨o.id, nm, q⟩ else o) := rfl

lemma applyCall_updName (nm : String) (idv : Value) (tbl : List Order) (newId : Int) :
    applyCall ⟨"UPDATE orders SET name=? WHERE id=?", [.vstr nm, idv]⟩ tbl newId
      = tbl.map (fun o => if rowIdMatches o idv then ⟨o.id, nm, o.quantity⟩ else o) := rfl

lemma applyCall_updQty (q : Int) (idv : Value) (tbl : List Order) (newId : Int) :
    applyCall ⟨"UPDATE orders SET quantity=? WHERE id=?", [.vint q, idv]⟩ tbl newId
      = tbl.map (fun o => if rowIdMatches o idv then ⟨o.id, o.name, q⟩ else o) := rfl

lemma applyCall_degenerate (ps : List Value) (tbl : List Order) (newId : Int) :
    applyCall ⟨"UPDATE orders SET  WHERE id=?", ps⟩ tbl newId = tbl := rfl


/-- Claim C3: every write issued through a validated route (POST insert,
PUT replace, PATCH partial update) preserves the order-row invariant:
applying the handler's statement with its values bound to a table whose
rows all have a non-empty name and quantity at least 1 yields a table
whose rows all still do — the guarantee comes from the validation layer
and the handlers' truthiness checks alone, with no schema constraint
assumed. -/
theorem validated_writes_preserve_order_invariant :
    ∀ (r : Route) (idStr : String) (b : ReqBody) (c : SqlCall)
      (tbl : List Order) (newId : Int),
      (r = .post ∨ r = .put ∨ r = .patch) →
      pipeline r idStr b = .dbCall c →
      (∀ o ∈ tbl, orderOK o) →
      ∀ o ∈ applyCall c.asBound tbl newId, orderOK o := by
  intro r idStr b c tbl newId hr hp hinv
  rw [pipeline_eq_dbCall] at hp
  obtain ⟨herr, rfl⟩ := hp
  rcases hr with rfl | rfl | rfl
  · -- POST
    rw [show routeErrors Route.post idStr b = validatePost b from rfl,
        validatePost_eq_nil] at herr
    obtain ⟨hn, n, hq, hn1⟩ := herr
    have hne : escapeHtml (jsTrim (b.name.getD "")) ≠ "" :=
      escapeHtml_ne_empty _ (str_len_pos_ne_empty _ hn)
    intro o ho
    have hc : SqlCall.asBound (routeCall Route.post idStr (routeSanitize Route.post b))
        = ⟨"INSERT INTO orders(name, quantity) VALUES (?, ?)",
           [.vstr (escapeHtml (jsTrim (b.name.getD ""))), .vint n]⟩ := by
      simp [SqlCall.asBound, routeCall, routeSanitize, hq, optQtyVal, jqtyVal]
    rw [hc, applyCall_insert] at ho
    rcases List.mem_append.mp ho with h | h
    · exact hinv o h
    · rcases List.mem_singleton.mp h with rfl
      exact ⟨hne, hn1⟩
  · -- PUT
    rw [show routeErrors Route.put idStr b = validatePut idStr b from rfl,
        validatePut_eq_nil] at herr
    obtain ⟨hid, hn, n, hq, hn1⟩ := herr
    have hne : escapeHtml (jsTrim (b.name.getD "")) ≠ "" :=
      escapeHtml_ne_empty _ (str_len_pos_ne_empty _ hn)
    intro o ho
    have hc : SqlCall.asBound (routeCall Route.put idStr (routeSanitize Route.put b))
        = ⟨"UPDATE orders SET name=?, quantity=? WHERE id=?",
           [.vstr (escapeHtml (jsTrim (b.name.getD ""))), .vint n, .vstr idStr]⟩ := by
      simp [SqlCall.asBound, routeCall, routeSanitize, hq, optQtyVal, jqtyVal]
    rw [hc, applyCall_update2] at ho
    obtain ⟨o0, ho0, rfl⟩ := List.mem_map.mp ho
    by_cases hm : rowIdMatches o0 (.vstr idStr)
    · simp only [hm, if_pos]
      exact ⟨hne, hn1⟩
    · simp only [hm, if_neg, ite_false]
      exact hinv o0 ho0
  · -- PATCH
    rw [show routeErrors Route.patch idStr b = validatePatch idStr b from rfl,
        validatePatch_eq_nil] at herr
    obtain ⟨hid, hqalt⟩ := herr
    intro o ho
    rcases b with ⟨nm, q⟩
    rcases nm with _ | s
    · -- no name field
      rcases hqalt with hq | ⟨n, hq, hn1⟩
      · -- neither field: degenerate statement, no write
        subst hq
        rw [show SqlCall.asBound (routeCall Route.patch idStr (routeSanitize Route.patch ⟨none, none⟩))
              = ⟨"UPDATE orders SET  WHERE id=?", [.vstr idStr]⟩ from rfl,
            applyCall_degenerate] at ho
        exact hinv o ho
      · subst hq
        by_cases hz : (n : Int) = 0
        · omega
        · have hc : SqlCall.asBound (routeCall Route.patch idStr
              (routeSanitize Route.patch ⟨none, some (.qint n)⟩))
              = ⟨"UPDATE orders SET quantity=? WHERE id=?", [.vint n, .vstr idStr]⟩ := by
            simp [SqlCall.asBound, routeCall, routeSanitize, patchAssignments, jqtyTruthy, hz, jqtyVal]
            rfl
          rw [hc, applyCall_updQty] at ho
          obtain ⟨o0, ho0, rfl⟩ := List.mem_map.mp ho
          by_cases hm : rowIdMatches o0 (.vstr idStr)
          · simp only [hm, if_pos]
            exact ⟨(hinv o0 ho0).1, hn1⟩
          · simp only [hm, if_neg, ite_false]
            exact hinv o0 ho0
    · -- name field present
      by_cases hs : escapeHtml (jsTrim s) = ""
      · -- name falsy: excluded
        rcases hqalt with hq | ⟨n, hq, hn1⟩
        · subst hq
          have hc : SqlCall.asBound (routeCall Route.patch idStr
              (routeSanitize Route.patch ⟨some s, none⟩))
              = ⟨"UPDATE orders SET  WHERE id=?", [.vstr idStr]⟩ := by
            simp [SqlCall.asBound, routeCall, routeSanitize, patchAssignments, hs]
            rfl
          rw [hc, applyCall_degenerate] at ho
          exact hinv o ho
        · subst hq
          by_cases hz : (n : Int) = 0
          · omega
          · have hc : SqlCall.asBound (routeCall Route.patch idStr
                (routeSanitize Route.patch ⟨some s, some (.qint n)⟩))
                = ⟨"UPDATE orders SET quantity=? WHERE id=?", [.vint n, .vstr idStr]⟩ := by
              simp [SqlCall.asBound, routeCall, routeSanitize, patchAssignments, hs, jqtyTruthy, hz, jqtyVal]
              rfl
            rw [hc, applyCall_updQty] at ho
            obtain ⟨o0, ho0, rfl⟩ := List.mem_map.mp ho
            by_cases hm : rowIdMatches o0 (.vstr idStr)
            · simp only [hm, if_pos]
              exact ⟨(hinv o0 ho0).1, hn1⟩
            · simp only [hm, if_neg, ite_false]
              exact hinv o0 ho0
      · -- name truthy: included
        rcases hqalt with hq | ⟨n, hq, hn1⟩
        · subst hq
          have hc : SqlCall.asBound (routeCall Route.patch idStr
              (routeSanitize Route.patch ⟨some s, none⟩))
              = ⟨"UPDATE orders SET name=? WHERE id=?",
                 [.vstr (escapeHtml (jsTrim s)), .vstr idStr]⟩ := by
            simp [SqlCall.asBound, routeCall, routeSanitize, patchAssignments, hs]
            rfl
          rw [hc, applyCall_updName] at ho
          obtain ⟨o0, ho0, rfl⟩ := List.mem_map.mp ho
          by_cases hm : rowIdMatches o0 (.vstr idStr)
          · simp only [hm, if_pos]
            exact ⟨hs, (hinv o0 ho0).2⟩
          · simp only [hm, if_neg, ite_false]
            exact hinv o0 ho0
        · subst hq
          by_cases hz : (n : Int) = 0
          · omega
          · have hc : SqlCall.asBound (routeCall Route.patch idStr
                (routeSanitize Route.patch ⟨some s, some (.qint n)⟩))
                = ⟨"UPDATE orders SET name=?, quantity=? WHERE id=?",
                   [.vstr (escapeHtml (jsTrim s)), .vint n, .vstr idStr]⟩ := by
              simp [SqlCall.asBound, routeCall, routeSanitize, patchAssignments, hs, jqtyTruthy, hz, jqtyVal]
              rfl
            rw [hc, applyCall_update2] at ho
            obtain ⟨o0, ho0, rfl⟩ := List.mem_map.mp ho
            by_cases hm : rowIdMatches o0 (.vstr idStr)
            · simp only [hm, if_pos]
              exact ⟨hs, hn1⟩
            · simp only [hm, if_neg, ite_false]
              exact hinv o0 ho0

/-- Witness for C3 at a concrete input: a valid POST inserts the row
(7, "Widget", 5), which satisfies the invariant. -/
theorem validated_writes_preserve_order_invariant_witness :
    orderOK ⟨7, "Widget", 5⟩ :=
  validated_writes_preserve_order_invariant .post "" ⟨some "Widget", some (.qint 5)⟩
    ⟨"INSERT INTO orders(name, quantity) VALUES (?, ?)", [.vstr "Widget", .vint 5]⟩
    [] 7 (Or.inl rfl) (by decide) (by simp) ⟨7, "Widget", 5⟩ (by decide)

/-- Claim C1: the Query Executor never binds the handler-supplied values.
`queryDB` declares only the `sql` parameter and runs `conn.query(sql)`, so
a call `queryDB(stmt, values)` submits the statement with an empty bound
parameter list — the values the handler passes are not the ones used in
execution (they are not used at all), contradicting the claim. The
statement string itself is also never concatenated with the values. -/
theorem queryDB_discards_handler_values :
    ∀ (sql : String) (values : List Value),
      queryDBCall sql values = queryDB sql ∧
      (queryDBCall sql values).boundParams = [] ∧
      (queryDBCall sql values).sql = sql :=
  fun _ _ => ⟨rfl, rfl, rfl⟩

/-- Counterexample to claim C2: a PATCH body whose name is whitespace only
(trimmed name empty) is not rejected — validation yields no errors and the
handler proceeds to the database with the degenerate statement. -/
theorem patch_blank_name_passes_validation :
    validatePatch "1" ⟨some "   ", none⟩ = [] ∧
    pipeline .patch "1" ⟨some "   ", none⟩ =
      .dbCall ⟨"UPDATE orders SET  WHERE id=?", [Value.vstr "1"]⟩ := by
  constructor
  · decide
  · decide

/-- Claim C2 as amended: on PATCH the name, when supplied, is trimmed and
HTML-escaped, but no minimum-length rule is applied — the validation
outcome is the same as if the name were absent, so an empty trimmed name
is never rejected with 400. -/
theorem patch_name_sanitized_never_rejected :
    ∀ (idStr : String) (b : ReqBody) (s : String), b.name = some s →
      (routeSanitize .patch b).name = some (escapeHtml (jsTrim s)) ∧
      validatePatch idStr b = validatePatch idStr ⟨none, b.quantity⟩ := by
  intro idStr b s hname
  rcases b with ⟨nm, q⟩
  cases hname
  exact ⟨rfl, rfl⟩

/-- Witness for the amended C2 at a concrete input. -/
theorem patch_name_sanitized_never_rejected_witness :
    (routeSanitize .patch ⟨some " a<b ", some (.qint 2)⟩).name =
      some (escapeHtml (jsTrim " a<b ")) ∧
    validatePatch "1" ⟨some " a<b ", some (.qint 2)⟩ =
      validatePatch "1" ⟨none, some (.qint 2)⟩ :=
  patch_name_sanitized_never_rejected "1" ⟨some " a<b ", some (.qint 2)⟩ " a<b " rfl

/-- Claim C4: whenever `queryDB` acquires a connection, the finally block
releases it exactly once on every exit path — both when the query returns
a result and when it throws — and the query's outcome (result or error)
is what the executor returns or propagates. -/
theorem queryDB_releases_on_every_exit :
    ∀ (run : QueryRun), (queryDBExec run).acquired = true →
      (queryDBExec run).releases = 1 ∧
      (queryDBExec run).result = run.queryOutcome := by
  intro run h
  rcases run with ⟨gc, qo⟩
  rcases gc with m | u
  · simp [queryDBExec] at h
  · rcases qo with m | res <;> simp [queryDBExec]

/-- Witness for C4 at a concrete run: connection acquired, query throws;
the connection is still released exactly once and the error propagates. -/
theorem queryDB_releases_on_every_exit_witness :
    (queryDBExec ⟨Except.ok (), Except.error "boom"⟩).releases = 1 ∧
    (queryDBExec ⟨Except.ok (), Except.error "boom"⟩).result = Except.error "boom" :=
  queryDB_releases_on_every_exit ⟨Except.ok (), Except.error "boom"⟩ rfl

/-- Claim C5: on every validated route, a non-empty validation result
makes the handler answer 400 carrying the validator's error list verbatim,
and the pipeline never reaches a database call; in particular a
non-integer path id on PATCH/PUT/DELETE always produces a non-empty
validation result. -/
theorem validation_failure_rejected_before_db :
    ∀ (r : Route) (idStr : String) (b : ReqBody),
      (routeErrors r idStr b ≠ [] →
         pipeline r idStr b = .respond ⟨400, .jsonErrors (routeErrors r idStr b)⟩ ∧
         ∀ c, pipeline r idStr b ≠ .dbCall c) ∧
      ((r = .patch ∨ r = .put ∨ r = .delete) → isIntStr idStr = false →
         routeErrors r idStr b ≠ []) := by
  intro r idStr b
  constructor
  · intro h
    constructor
    · unfold pipeline
      rw [if_neg h]
    · intro c he
      rw [pipeline_eq_dbCall] at he
      exact h he.1
  · intro hr hid
    rcases hr with rfl | rfl | rfl
    · intro he
      rw [show routeErrors Route.patch idStr b = validatePatch idStr b from rfl,
          validatePatch_eq_nil] at he
      rw [he.1] at hid
      cases hid
    · intro he
      rw [show routeErrors Route.put idStr b = validatePut idStr b from rfl,
          validatePut_eq_nil] at he
      rw [he.1] at hid
      cases hid
    · intro he
      rw [show routeErrors Route.delete idStr b = validateDelete idStr from rfl,
          validateDelete_eq_nil] at he
      rw [he] at hid
      cases hid

/-- Witness for C5 at a concrete input: a DELETE with the non-integer path
id "abc" is answered 400 with the id validation error, before any call. -/
theorem validation_failure_rejected_before_db_witness :
    pipeline .delete "abc" ⟨none, none⟩ =
      .respond ⟨400, .jsonErrors [invalidValue "params" "id"]⟩ := by
  have h := validation_failure_rejected_before_db .delete "abc" ⟨none, none⟩
  have hne := h.2 (Or.inr (Or.inr rfl)) (by decide)
  exact (h.1 hne).1

/-- Claim C6: for a PATCH request that passes validation, the issued
UPDATE statement's SET clause is assembled from exactly the assignment
pairs of the fields that are present and truthy in the (sanitized) body,
name before quantity, with the id appended as the final parameter; when
neither field qualifies the statement degenerates to an empty SET clause. -/
theorem patch_set_clause_exactly_truthy_fields
    (idStr : String) (b : ReqBody)
    (h : routeErrors .patch idStr b = []) :
    pipeline .patch idStr b = .dbCall
      ⟨"UPDATE orders SET " ++
         String.intercalate ", "
           ((patchAssignments (routeSanitize .patch b)).map (fun p => p.1 ++ "=?")) ++
         " WHERE id=?",
       (patchAssignments (routeSanitize .patch b)).map Prod.snd ++ [Value.vstr idStr]⟩ ∧
    (patchAssignments (routeSanitize .patch b)).map Prod.fst =
      (match (routeSanitize .patch b).name with
       | some s => if s ≠ "" then ["name"] else []
       | none => []) ++
      (match (routeSanitize .patch b).quantity with
       | some q => if jqtyTruthy q then ["quantity"] else []
       | none => []) ∧
    (patchAssignments (routeSanitize .patch b) = [] →
       pipeline .patch idStr b =
         .dbCall ⟨"UPDATE orders SET  WHERE id=?", [Value.vstr idStr]⟩) := by
  refine ⟨?_, ?_, ?_⟩
  · rw [pipeline_eq_dbCall]
    exact ⟨h, rfl⟩
  · rcases hsan : routeSanitize .patch b with ⟨nm, q⟩
    rcases nm with _ | s <;> rcases q with _ | q <;>
      unfold patchAssignments <;> simp <;>
      (try (split <;> simp)) <;> (try (split <;> simp))
  · intro hemp
    rw [pipeline_eq_dbCall]
    refine ⟨h, ?_⟩
    show _ = routeCall Route.patch idStr (routeSanitize Route.patch b)
    unfold routeCall
    rw [hemp]
    rfl

/-- Witness for C6 at a concrete input: a PATCH supplying only a name
issues an UPDATE whose SET clause holds exactly the name column. -/
theorem patch_set_clause_exactly_truthy_fields_witness :
    pipeline .patch "7" ⟨some " A ", none⟩ =
      .dbCall ⟨"UPDATE orders SET name=? WHERE id=?", [Value.vstr "A", Value.vstr "7"]⟩ := by
  have h := patch_set_clause_exactly_truthy_fields "7" ⟨some " A ", none⟩ (by decide)
  exact h.1

/-- Claim C7: on a valid POST the handler does construct the INSERT with
the two values in order, but the executor submits the statement with no
values bound although it carries two placeholders, the actually submitted
command can never insert a row, and the resulting query error is answered
500 — so the claimed 201-with-retrievable-row behavior cannot occur. -/
theorem post_values_never_reach_database :
    pipeline .post "" ⟨some "Widget", some (.qint 5)⟩ =
      .dbCall ⟨"INSERT INTO orders(name, quantity) VALUES (?, ?)",
               [Value.vstr "Widget", Value.vint 5]⟩ ∧
    placeholderCount "INSERT INTO orders(name, quantity) VALUES (?, ?)" = 2 ∧
    queryDBCall "INSERT INTO orders(name, quantity) VALUES (?, ?)"
        [Value.vstr "Widget", Value.vint 5] =
      ⟨"INSERT INTO orders(name, quantity) VALUES (?, ?)", []⟩ ∧
    (∀ (tbl : List Order) (newId : Int),
       applyCall (queryDBCall "INSERT INTO orders(name, quantity) VALUES (?, ?)"
         [Value.vstr "Widget", Value.vint 5]) tbl newId = tbl) ∧
    handleRequest .post "" ⟨some "Widget", some (.qint 5)⟩ (.error "e") =
      ⟨500, .jsonError "e"⟩ :=
  ⟨by decide, by decide, rfl, fun _ _ => rfl, by decide⟩

/-- Claim C8: on a valid PUT the handler constructs the UPDATE with name,
quantity and id in order, but the executor submits it with no values bound
although it carries three placeholders; the submitted command never
changes the table (in particular `affectedRows` can never be produced),
and the resulting query error is answered 500 — so neither the claimed
200-with-affectedRows-0 nor the 200-with-affectedRows-1 behavior occurs. -/
theorem put_values_never_reach_database :
    pipeline .put "1" ⟨some "Widget", some (.qint 5)⟩ =
      .dbCall ⟨"UPDATE orders SET name=?, quantity=? WHERE id=?",
               [Value.vstr "Widget", Value.vint 5, Value.vstr "1"]⟩ ∧
    placeholderCount "UPDATE orders SET name=?, quantity=? WHERE id=?" = 3 ∧
    queryDBCall "UPDATE orders SET name=?, quantity=? WHERE id=?"
        [Value.vstr "Widget", Value.vint 5, Value.vstr "1"] =
      ⟨"UPDATE orders SET name=?, quantity=? WHERE id=?", []⟩ ∧
    (∀ (tbl : List Order) (newId : Int),
       applyCall (queryDBCall "UPDATE orders SET name=?, quantity=? WHERE id=?"
         [Value.vstr "Widget", Value.vint 5, Value.vstr "1"]) tbl newId = tbl) ∧
    handleRequest .put "1" ⟨some "Widget", some (.qint 5)⟩ (.error "e") =
      ⟨500, .jsonError "e"⟩ :=
  ⟨by decide, by decide, rfl, fun _ _ => rfl, by decide⟩

/-- Claim C9: on every route, when validation passed and the database
query raises an error, the handler catches it and answers exactly
HTTP 500 with body {error: message} carrying the raw error text; the
response function is total, so the failure never escapes the handler. -/
theorem db_error_answered_500 :
    ∀ (r : Route) (idStr : String) (b : ReqBody) (m : String),
      routeErrors r idStr b = [] →
      handleRequest r idStr b (.error m) = ⟨500, .jsonError m⟩ := by
  intro r idStr b m h
  unfold handleRequest pipeline
  rw [if_pos h]
  rfl

/-- Witness for C9 at a concrete input: a GET /orders whose query fails
with "boom" is answered 500 {error: "boom"}. -/
theorem db_error_answered_500_witness :
    handleRequest .getOrders "" ⟨none, none⟩ (.error "boom") =
      ⟨500, .jsonError "boom"⟩ :=
  db_error_answered_500 .getOrders "" ⟨none, none⟩ "boom" rfl

/-- Claim C10: a PATCH whose name trims to the empty string passes
validation (provided the path id is an integer and the quantity is absent
or a valid integer), yet contributes no assignment — the name is neither
rejected with 400 nor written; and when the quantity is absent too, the
degenerate empty-SET statement is issued with only the id parameter. -/
theorem patch_blank_name_silently_dropped :
    ∀ (idStr : String) (b : ReqBody) (s : String),
      isIntStr idStr = true → b.name = some s → jsTrim s = "" →
      ((b.quantity = none ∨ ∃ n, b.quantity = some (JQty.qint n) ∧ 1 ≤ n) →
         validatePatch idStr b = [] ∧
         ∀ p ∈ patchAssignments (routeSanitize .patch b), p.1 ≠ "name") ∧
      (b.quantity = none →
         pipeline .patch idStr b =
           .dbCall ⟨"UPDATE orders SET  WHERE id=?", [Value.vstr idStr]⟩) := by
  intro idStr b s hid hname htrim
  rcases b with ⟨nm, q⟩
  cases hname
  constructor
  · intro hq
    refine ⟨?_, ?_⟩
    · rw [validatePatch_eq_nil]
      exact ⟨hid, hq⟩
    · intro p hp
      rw [show routeSanitize Route.patch ⟨some s, q⟩
            = ⟨some (escapeHtml (jsTrim s)), q⟩ from rfl, htrim] at hp
      rw [show (escapeHtml "") = "" from rfl] at hp
      rcases q with _ | q
      · rw [show patchAssignments ⟨some "", none⟩ = [] from rfl] at hp
        simp at hp
      · rw [show patchAssignments ⟨some "", some q⟩
              = (if jqtyTruthy q = true then [("quantity", jqtyVal q)] else []) from rfl] at hp
        by_cases ht : jqtyTruthy q = true
        · rw [if_pos ht] at hp
          rw [List.mem_singleton.mp hp]
          simp
        · rw [if_neg ht] at hp
          simp at hp
  · rintro rfl
    rw [pipeline_eq_dbCall]
    refine ⟨?_, ?_⟩
    · rw [show routeErrors Route.patch idStr ⟨some s, none⟩
            = validatePatch idStr ⟨some s, none⟩ from rfl, validatePatch_eq_nil]
      exact ⟨hid, Or.inl rfl⟩
    · rw [show routeSanitize Route.patch ⟨some s, none⟩
            = ⟨some (escapeHtml (jsTrim s)), none⟩ from rfl, htrim]
      rfl

/-- Witness for C10 at a concrete input: a PATCH with a whitespace-only
name and no quantity passes validation and issues the degenerate
statement. -/
theorem patch_blank_name_silently_dropped_witness :
    validatePatch "1" ⟨some "  ", none⟩ = [] ∧
    pipeline .patch "1" ⟨some "  ", none⟩ =
      .dbCall ⟨"UPDATE orders SET  WHERE id=?", [Value.vstr "1"]⟩ := by
  have h := patch_blank_name_silently_dropped "1" ⟨some "  ", none⟩ "  " (by decide) rfl (by decide)
  exact ⟨(h.1 (Or.inl rfl)).1, h.2 rfl⟩

end Server
